import Mathlib

/-
Verification of the infrastructure-automation repository core:
the AWS inventory transform (src/inventory/aws_inventory.py),
the SSH key manager (src/utils/ssh_manager.py) and the CLI
dispatch (main.py), shallowly embedded in Lean 4.
-/

set_option maxHeartbeats 1000000

namespace InfraAuto

/-! ### Python dict model

Python dict assignment `d[k] = v` replaces the value in place when the
key exists (preserving insertion order) and appends the pair otherwise.
`d.get(k)` returns the stored value or None.  We model a dict as an
association list whose keys stay unique under `dictInsert`. -/

def dictGet {α : Type} (d : List (String × α)) (k : String) : Option α :=
  match d with
  | [] => none
  | (k2, v) :: rest => if k2 = k then some v else dictGet rest k

def dictInsert {α : Type} (d : List (String × α)) (k : String) (v : α) :
    List (String × α) :=
  match d with
  | [] => [(k, v)]
  | (k2, v2) :: rest =>
      if k2 = k then (k, v) :: rest else (k2, v2) :: dictInsert rest k v

theorem dictGet_insert {α : Type} (d : List (String × α)) (k k2 : String) (v : α) :
    dictGet (dictInsert d k v) k2 = if k = k2 then some v else dictGet d k2 := by
  induction d with
  | nil =>
      by_cases h : k = k2 <;> simp [dictInsert, dictGet, h]
  | cons hd tl ih =>
      obtain ⟨k3, v3⟩ := hd
      by_cases h3 : k3 = k
      · subst h3
        by_cases h : k3 = k2 <;> simp [dictInsert, dictGet, h]
      · simp only [dictInsert, h3, ite_false]
        by_cases h2 : k3 = k2
        · have hk2 : ¬ k = k2 := fun hh => h3 (h2.trans hh.symm)
          simp [dictGet, h2, hk2]
        · simp [dictGet, h2, ih]

/-! ### Data model: instance records and the inventory document -/

/-- The normalized record produced per running instance by
`AWSInventoryGenerator.get_instances` (aws_inventory.py lines 73-80). -/
structure InstanceInfo where
  id : String
  type : String
  state : String
  private_ip : Option String
  public_ip : Option String
  tags : List (String × String)
  deriving Repr, DecidableEq

/-- The per-host variables dict built in `generate_inventory`
(aws_inventory.py lines 129-134). -/
structure HostVars where
  ansible_host : Option String
  ansible_user : String
  instance_id : String
  instance_type : String
  deriving Repr, DecidableEq

/-- The inventory document: `all.hosts` and
`all.children.webservers.hosts` (aws_inventory.py lines 117-126). -/
structure Inventory where
  allHosts : List (String × HostVars)
  webserversHosts : List (String × HostVars)
  deriving Repr, DecidableEq

/-- Python `x or y` on optional strings: `y` when `x` is falsy
(None or the empty string), `x` otherwise. -/
def pyOr (a b : Option String) : Option String :=
  match a with
  | some s => if s = "" then b else some s
  | none => b

/-- The host_vars dict of aws_inventory.py lines 129-134:
`ansible_host` is `instance.public_ip or instance.private_ip`. -/
def mkHostVars (inst : InstanceInfo) : HostVars :=
  { ansible_host := pyOr inst.public_ip inst.private_ip
  , ansible_user := "ubuntu"
  , instance_id := inst.id
  , instance_type := inst.type }

/-- One iteration of the loop at aws_inventory.py lines 128-142:
insert into `all.hosts`, and additionally into
`all.children.webservers.hosts` when `tags.get("Role") == "webserver"`. -/
def buildStep (inv : Inventory) (inst : InstanceInfo) : Inventory :=
  let host_vars := mkHostVars inst
  let inv2 : Inventory :=
    { inv with allHosts := dictInsert inv.allHosts inst.id host_vars }
  if dictGet inst.tags "Role" = some "webserver" then
    { inv2 with
        webserversHosts := dictInsert inv2.webserversHosts inst.id host_vars }
  else inv2

def buildInventoryLoop (inv : Inventory) : List InstanceInfo → Inventory
  | [] => inv
  | inst :: rest => buildInventoryLoop (buildStep inv inst) rest

/-- The inventory transform of `generate_inventory`
(aws_inventory.py lines 117-142), starting from empty host maps. -/
def buildInventory (l : List InstanceInfo) : Inventory :=
  buildInventoryLoop { allHosts := [], webserversHosts := [] } l

/-- Last element of a list satisfying `p` (the value a sequence of
dict overwrites leaves behind), as an accumulator loop. -/
def lastWith (p : InstanceInfo → Bool) :
    Option InstanceInfo → List InstanceInfo → Option InstanceInfo
  | acc, [] => acc
  | acc, inst :: rest => lastWith p (if p inst then some inst else acc) rest

theorem lastWith_acc (p : InstanceInfo → Bool) :
    ∀ (l : List InstanceInfo) (acc : Option InstanceInfo),
      lastWith p acc l =
        match lastWith p none l with
        | some j => some j
        | none => acc := by
  intro l
  induction l with
  | nil => intro acc; simp [lastWith]
  | cons i rest ih =>
      intro acc
      show lastWith p (if p i then some i else acc) rest =
        match lastWith p (if p i then some i else none) rest with
        | some j => some j
        | none => acc
      rw [ih (if p i then some i else acc), ih (if p i then some i else none)]
      cases lastWith p none rest <;> by_cases hp : p i <;> simp [hp]

theorem buildStep_allHosts (inv : Inventory) (inst : InstanceInfo) (s : String) :
    dictGet (buildStep inv inst).allHosts s =
      if inst.id = s then some (mkHostVars inst) else dictGet inv.allHosts s := by
  by_cases hw : dictGet inst.tags "Role" = some "webserver" <;>
    simp [buildStep, hw, dictGet_insert]

theorem buildStep_webHosts (inv : Inventory) (inst : InstanceInfo) (s : String) :
    dictGet (buildStep inv inst).webserversHosts s =
      if inst.id = s ∧ dictGet inst.tags "Role" = some "webserver" then
        some (mkHostVars inst)
      else dictGet inv.webserversHosts s := by
  by_cases hw : dictGet inst.tags "Role" = some "webserver"
  · simp [buildStep, hw, dictGet_insert]
  · simp [buildStep, hw]

/-- Characterization of the root host map: the entry under `s` is the
host vars of the last input instance whose id is `s`. -/
theorem loop_allHosts (s : String) :
    ∀ (l : List InstanceInfo) (inv : Inventory),
      dictGet (buildInventoryLoop inv l).allHosts s =
        match lastWith (fun i => i.id == s) none l with
        | some j => some (mkHostVars j)
        | none => dictGet inv.allHosts s := by
  intro l
  induction l with
  | nil => intro inv; simp [buildInventoryLoop, lastWith]
  | cons i rest ih =>
      intro inv
      have hrw : lastWith (fun i => i.id == s) none (i :: rest) =
          match lastWith (fun i => i.id == s) none rest with
          | some j => some j
          | none => if (i.id == s : Bool) then some i else none := by
        show lastWith (fun i => i.id == s)
            (if (i.id == s : Bool) then some i else none) rest = _
        rw [lastWith_acc]
      show dictGet (buildInventoryLoop (buildStep inv i) rest).allHosts s = _
      rw [ih (buildStep inv i), hrw]
      cases hrest : lastWith (fun i => i.id == s) none rest with
      | some j => simp
      | none =>
          by_cases hid : i.id = s <;> simp [hid, buildStep_allHosts]

/-- Characterization of the webservers host map: the entry under `s` is
the host vars of the last input instance whose id is `s` and whose
`Role` tag is `webserver`. -/
theorem loop_webHosts (s : String) :
    ∀ (l : List InstanceInfo) (inv : Inventory),
      dictGet (buildInventoryLoop inv l).webserversHosts s =
        match lastWith
            (fun i => i.id == s && decide (dictGet i.tags "Role" = some "webserver"))
            none l with
        | some j => some (mkHostVars j)
        | none => dictGet inv.webserversHosts s := by
  intro l
  induction l with
  | nil => intro inv; simp [buildInventoryLoop, lastWith]
  | cons i rest ih =>
      intro inv
      have hrw : lastWith
          (fun i => i.id == s && decide (dictGet i.tags "Role" = some "webserver"))
          none (i :: rest) =
          match lastWith
              (fun i => i.id == s && decide (dictGet i.tags "Role" = some "webserver"))
              none rest with
          | some j => some j
          | none =>
              if (i.id == s && decide (dictGet i.tags "Role" = some "webserver") : Bool)
              then some i else none := by
        show lastWith
            (fun i => i.id == s && decide (dictGet i.tags "Role" = some "webserver"))
            (if (i.id == s && decide (dictGet i.tags "Role" = some "webserver") : Bool)
             then some i else none) rest = _
        rw [lastWith_acc]
      show dictGet (buildInventoryLoop (buildStep inv i) rest).webserversHosts s = _
      rw [ih (buildStep inv i), hrw]
      cases hrest : lastWith
          (fun i => i.id == s && decide (dictGet i.tags "Role" = some "webserver"))
          none rest with
      | some j => simp
      | none =>
          by_cases hid : i.id = s
          · by_cases hw : dictGet i.tags "Role" = some "webserver" <;>
              simp [hid, hw, buildStep_webHosts]
          · simp [hid, buildStep_webHosts]

/-! ### Error taxonomy (src/utils/exceptions.py) and Python exceptions -/

/-- The custom exception hierarchy of exceptions.py, carrying str(e). -/
inductive InfraError where
  | cloudProviderError (msg : String)
  | resourceNotFoundError (msg : String)
  | inventoryError (msg : String)
  | authenticationError (msg : String)
  | sshManagerError (msg : String)
  deriving Repr, DecidableEq

def InfraError.msg : InfraError → String
  | .cloudProviderError m => m
  | .resourceNotFoundError m => m
  | .inventoryError m => m
  | .authenticationError m => m
  | .sshManagerError m => m

/-- A Python exception as seen by the except clauses in
aws_inventory.py: botocore ClientError (with its response error code
and message), one of the domain errors, or any other exception. -/
inductive PyExc where
  | clientError (code msg : String)
  | infra (e : InfraError)
  | other (msg : String)
  deriving Repr, DecidableEq

/-- str(e) for an exception: the domain errors carry their message;
for other exceptions we carry the message directly.  (For ClientError
the code only reads the response fields, never str(e).) -/
def PyExc.str : PyExc → String
  | .clientError _ m => m
  | .infra e => e.msg
  | .other m => m

/-! ### get_instances (aws_inventory.py lines 49-101) -/

/-- A raw Tags list entry of the describe_instances response. -/
structure RawTag where
  key : String
  value : String
  deriving Repr, DecidableEq

/-- A raw instance of the describe_instances response; optional fields
are read with .get and absent keys yield None. -/
structure RawInstance where
  instanceId : String
  instanceType : String
  stateName : String
  privateIpAddress : Option String
  publicIpAddress : Option String
  tags : List RawTag
  deriving Repr, DecidableEq

structure Reservation where
  instances : List RawInstance
  deriving Repr, DecidableEq

/-- Outcome of the ec2 describe_instances call: a response, a botocore
ClientError, or any other exception. -/
inductive ProviderResult where
  | ok (reservations : List Reservation)
  | clientError (code msg : String)
  | otherError (msg : String)
  deriving Repr, DecidableEq

/-- The instance_info dict built at aws_inventory.py lines 73-80; the
tags dict comprehension overwrites on duplicate keys. -/
def toInstanceInfo (i : RawInstance) : InstanceInfo :=
  { id := i.instanceId
  , type := i.instanceType
  , state := i.stateName
  , private_ip := i.privateIpAddress
  , public_ip := i.publicIpAddress
  , tags := i.tags.foldl (fun d t => dictInsert d t.key t.value) [] }

/-- Inner loop over the Instances of one reservation (lines 71-82):
append the normalized record only when the state is running. -/
def instLoop (acc : List InstanceInfo) : List RawInstance → List InstanceInfo
  | [] => acc
  | i :: rest =>
      instLoop (if i.stateName = "running" then acc ++ [toInstanceInfo i] else acc) rest

/-- Outer loop over the Reservations (line 70). -/
def resLoop (acc : List InstanceInfo) : List Reservation → List InstanceInfo
  | [] => acc
  | r :: rest => resLoop (instLoop acc r.instances) rest

def extractInstances (rs : List Reservation) : List InstanceInfo :=
  resLoop [] rs

/-- The try body of get_instances (lines 63-88): filter to running
instances and raise ResourceNotFoundError when none remain. -/
def get_instances_try (resp : ProviderResult) :
    Except PyExc (List InstanceInfo) :=
  match resp with
  | .ok rs =>
      let instances := extractInstances rs
      if instances.isEmpty then
        .error (.infra (.resourceNotFoundError "No running EC2 instances found"))
      else .ok instances
  | .clientError c m => .error (.clientError c m)
  | .otherError m => .error (.other m)

/-- get_instances (lines 49-101).  The except clauses run in order:
`except ClientError` wraps into CloudProviderError using the response
message; the blanket `except Exception` wraps EVERY other exception —
including the ResourceNotFoundError raised by the try body itself —
into CloudProviderError with the unexpected-error prefix. -/
def get_instances (resp : ProviderResult) : Except PyExc (List InstanceInfo) :=
  match get_instances_try resp with
  | .ok v => .ok v
  | .error (.clientError _ m) =>
      .error (.infra (.cloudProviderError ("Failed to get EC2 instances: " ++ m)))
  | .error e =>
      .error (.infra (.cloudProviderError
        ("Unexpected error getting EC2 instances: " ++ e.str)))

/-! ### generate_inventory (aws_inventory.py lines 103-160) -/

/-- Outcome of the file write at lines 145-148. -/
inductive WriteResult where
  | ok
  | ioError (msg : String)
  deriving Repr, DecidableEq

/-- The try body of generate_inventory (lines 114-152): list instances,
build the document, write it; a write failure raises InventoryError. -/
def generate_inventory_try (resp : ProviderResult) (w : WriteResult) :
    Except PyExc Inventory :=
  match get_instances resp with
  | .error e => .error e
  | .ok instances =>
      let inventory := buildInventory instances
      match w with
      | .ok => .ok inventory
      | .ioError m =>
          .error (.infra (.inventoryError ("Failed to write inventory file: " ++ m)))

/-- generate_inventory (lines 103-160): CloudProviderError and
ResourceNotFoundError are wrapped into InventoryError; every other
exception (including the write-failure InventoryError raised inside
the try) is wrapped by the blanket `except Exception`. -/
def generate_inventory (resp : ProviderResult) (w : WriteResult) :
    Except PyExc Inventory :=
  match generate_inventory_try resp w with
  | .ok v => .ok v
  | .error (.infra (.cloudProviderError m)) =>
      .error (.infra (.inventoryError ("Failed to generate inventory: " ++ m)))
  | .error (.infra (.resourceNotFoundError m)) =>
      .error (.infra (.inventoryError ("Failed to generate inventory: " ++ m)))
  | .error e =>
      .error (.infra (.inventoryError
        ("Unexpected error generating inventory: " ++ e.str)))

/-! ### SSH key manager (src/utils/ssh_manager.py)

The local filesystem is modelled as a map from path to file entry;
an entry is readable content or an unreadable file (open raises
IOError).  os.path.exists is true for any entry. -/

inductive FileContent where
  | readable (content : String)
  | unreadable (err : String)
  deriving Repr, DecidableEq

structure FileSystem where
  files : List (String × FileContent)
  deriving Repr, DecidableEq

def fsLookup (fs : FileSystem) (path : String) : Option FileContent :=
  dictGet fs.files path

/-- os.path.exists. -/
def fsExists (fs : FileSystem) (path : String) : Bool :=
  (fsLookup fs path).isSome

def fsWrite (fs : FileSystem) (path content : String) : FileSystem :=
  { files := dictInsert fs.files path (.readable content) }

/-- os.path.join for a directory and a relative file name. -/
def joinPath (dir name : String) : String :=
  dir ++ "/" ++ name

/-- Outcome of the external ssh-keygen invocation plus the chmod calls
(ssh_manager.py lines 60-70): success with the two written files,
a CalledProcessError from ssh-keygen, or an OSError from chmod
(files already written by then). -/
inductive KeygenOutcome where
  | success (privContent pubContent : String)
  | calledProcessError (stderr : String)
  | chmodError (privContent pubContent msg : String)
  deriving Repr, DecidableEq

/-- Result of generate_key_pair: the returned pair or raised error,
whether the external key-generation capability was invoked, and the
filesystem afterwards. -/
structure KeygenResult where
  result : Except InfraError (String × String)
  invoked : Bool
  fs : FileSystem
  deriving Repr

/-- generate_key_pair (ssh_manager.py lines 38-84): when the private
key path already exists it logs a warning and returns the existing
paths without invoking ssh-keygen; otherwise it invokes ssh-keygen
and sets permissions, wrapping failures in SSHManagerError. -/
def generate_key_pair (fs : FileSystem) (key_dir key_name : String)
    (keygen : KeygenOutcome) : KeygenResult :=
  let private_key_path := joinPath key_dir key_name
  let public_key_path := private_key_path ++ ".pub"
  if fsExists fs private_key_path then
    { result := .ok (private_key_path, public_key_path), invoked := false, fs := fs }
  else
    match keygen with
    | .success priv pub =>
        { result := .ok (private_key_path, public_key_path)
        , invoked := true
        , fs := fsWrite (fsWrite fs private_key_path priv) public_key_path pub }
    | .calledProcessError stderr =>
        { result := .error (.sshManagerError
            ("Failed to generate SSH key pair: " ++ stderr))
        , invoked := true
        , fs := fs }
    | .chmodError priv pub m =>
        { result := .error (.sshManagerError
            ("Failed to set key permissions: " ++ m))
        , invoked := true
        , fs := fsWrite (fsWrite fs private_key_path priv) public_key_path pub }

/-- get_public_key (ssh_manager.py lines 86-113): open the public key
file, return its stripped content; FileNotFoundError becomes
ResourceNotFoundError, any other IOError becomes SSHManagerError. -/
def get_public_key (fs : FileSystem) (key_dir key_name : String) :
    Except InfraError String :=
  let public_key_path := joinPath key_dir (key_name ++ ".pub")
  match fsLookup fs public_key_path with
  | some (.readable content) => .ok content.trim
  | none => .error (.resourceNotFoundError ("Public key not found: " ++ public_key_path))
  | some (.unreadable e) =>
      .error (.sshManagerError ("Failed to read public key: " ++ e))

/-- An external process request: argument vector and optional
wall-clock timeout passed to subprocess.run. -/
structure ProcRequest where
  argv : List String
  timeout : Option Nat
  deriving Repr, DecidableEq

/-- The ssh invocation built by verify_connectivity
(ssh_manager.py lines 138-154): note timeout=10. -/
def ssh_request (private_key_path : String) (port : Nat) (user host : String) :
    ProcRequest :=
  { argv := ["ssh", "-i", private_key_path, "-p", toString port,
             "-o", "StrictHostKeyChecking=no", "-o", "BatchMode=yes",
             user ++ "@" ++ host, "echo \x27SSH connection successful\x27"]
  , timeout := some 10 }

/-- Outcome of the external ssh invocation: process exit with a return
code, subprocess.TimeoutExpired, subprocess.CalledProcessError, or any
other exception. -/
inductive SSHOutcome where
  | exit (code : Int)
  | timeoutExpired
  | calledProcessError (stderr : String)
  | unexpected (msg : String)
  deriving Repr, DecidableEq

/-- verify_connectivity (ssh_manager.py lines 115-173): raise
ResourceNotFoundError when the private key path does not exist; run
ssh with a 10-second timeout; exit code zero maps to true, nonzero
exit, timeout and CalledProcessError map to false, and any other
exception is wrapped in SSHManagerError. -/
def verify_connectivity (fs : FileSystem) (key_dir host user key_name : String)
    (port : Nat) (run : ProcRequest → SSHOutcome) : Except InfraError Bool :=
  let private_key_path := joinPath key_dir key_name
  if fsExists fs private_key_path then
    match run (ssh_request private_key_path port user host) with
    | .exit code => if code = 0 then .ok true else .ok false
    | .timeoutExpired => .ok false
    | .calledProcessError _ => .ok false
    | .unexpected m =>
        .error (.sshManagerError
          ("Unexpected error connecting to " ++ host ++ ": " ++ m))
  else
    .error (.resourceNotFoundError ("Private key not found: " ++ private_key_path))

/-! ### CLI dispatch (main.py) -/

/-- Observable actions a CLI handler performs.  generateInventory
stands for a call into the Instance Lister and Inventory Builder
pipeline (generate_aws_inventory). -/
inductive Effect where
  | logInfo (msg : String)
  | generateInventory (region output : String)
  deriving Repr, DecidableEq

/-- A parsed CLI command with its required flags (main.py lines 31-67). -/
inductive Cli where
  | inventory (provider region output : String)
  | provision (playbook inventoryPath : String)
  | configure (playbook inventoryPath : String)
  deriving Repr, DecidableEq

/-- handle_inventory (main.py lines 88-92): logs, then a TODO comment
and `pass` — no listing and no generation is performed. -/
def handle_inventory (provider region _output : String) : List Effect :=
  [Effect.logInfo ("Generating inventory for " ++ provider ++ " in " ++ region)]

/-- handle_provision (main.py lines 94-98): unimplemented stub. -/
def handle_provision (playbook : String) : List Effect :=
  [Effect.logInfo ("Provisioning servers using playbook: " ++ playbook)]

/-- handle_configure (main.py lines 100-104): unimplemented stub. -/
def handle_configure (playbook : String) : List Effect :=
  [Effect.logInfo ("Configuring servers using playbook: " ++ playbook)]

/-- The command_handlers dispatch of main (main.py lines 118-126). -/
def dispatch : Cli → List Effect
  | .inventory p r o => handle_inventory p r o
  | .provision pb _ => handle_provision pb
  | .configure pb _ => handle_configure pb

/-- main (main.py lines 106-135): a recognized command runs its handler
and returns exit code 0. -/
def mainExitCode (_c : Cli) : Nat := 0

/-- True when an effect list contains an invocation of the inventory
generation pipeline. -/
def invokesGeneration (effects : List Effect) : Bool :=
  effects.any (fun e =>
    match e with
    | Effect.generateInventory _ _ => true
    | _ => false)

/-! ### Helper lemmas about lastWith -/

theorem lastWith_of_all_false (p : InstanceInfo → Bool) :
    ∀ (l : List InstanceInfo) (acc : Option InstanceInfo),
      (∀ i ∈ l, p i = false) → lastWith p acc l = acc := by
  intro l
  induction l with
  | nil => intro acc _; rfl
  | cons i rest ih =>
      intro acc h
      have hi : p i = false := h i (by simp)
      have hif : (if p i then some i else acc) = acc := by simp [hi]
      show lastWith p (if p i then some i else acc) rest = acc
      rw [hif]
      exact ih acc (fun j hj => h j (by simp [hj]))

theorem lastWith_isSome_of_mem (p : InstanceInfo → Bool) :
    ∀ (l : List InstanceInfo) (acc : Option InstanceInfo) (inst : InstanceInfo),
      inst ∈ l → p inst = true → (lastWith p acc l).isSome = true := by
  intro l
  induction l with
  | nil =>
      intro acc inst h _
      exact absurd h (List.not_mem_nil inst)
  | cons i rest ih =>
      intro acc inst hmem hp
      show (lastWith p (if p i then some i else acc) rest).isSome = true
      rcases List.mem_cons.mp hmem with h | h
      · subst h
        rw [lastWith_acc]
        cases lastWith p none rest <;> simp [hp]
      · exact ih _ inst h hp

theorem lastWith_of_nodup (l : List InstanceInfo) (inst : InstanceInfo)
    (hmem : inst ∈ l) (hnodup : (l.map InstanceInfo.id).Nodup) :
    lastWith (fun i => i.id == inst.id) none l = some inst := by
  induction l with
  | nil => cases hmem
  | cons a rest ih =>
      obtain ⟨ha, hrest⟩ :
          (∀ x ∈ rest, ¬ x.id = a.id) ∧ (rest.map InstanceInfo.id).Nodup := by
        simpa using hnodup
      rcases List.mem_cons.mp hmem with h | h
      · subst h
        show lastWith (fun i => i.id == inst.id)
          (if (inst.id == inst.id : Bool) then some inst else none) rest = some inst
        have hnone : ∀ i ∈ rest, (i.id == inst.id) = false := by
          intro i hi
          simp [ha i hi]
        rw [lastWith_of_all_false _ rest _ hnone]
        simp
      · have hih := ih h hrest
        show lastWith (fun i => i.id == inst.id)
          (if (a.id == inst.id : Bool) then some a else none) rest = some inst
        rw [lastWith_acc, hih]

theorem lastWith_conj (p q : InstanceInfo → Bool) :
    ∀ (l : List InstanceInfo) (acc acc2 : Option InstanceInfo),
      (∀ j, acc = some j → q j = true → acc2 = some j) →
      ∀ j, lastWith p acc l = some j → q j = true →
        lastWith (fun i => p i && q i) acc2 l = some j := by
  intro l
  induction l with
  | nil =>
      intro acc acc2 h j hlast hq
      exact h j hlast hq
  | cons i rest ih =>
      intro acc acc2 h j hlast hq
      have hlast2 : lastWith p (if p i then some i else acc) rest = some j := hlast
      show lastWith (fun i => p i && q i)
        (if (p i && q i : Bool) then some i else acc2) rest = some j
      refine ih _ _ ?_ j hlast2 hq
      intro j2 hj2 hq2
      by_cases hp : p i = true
      · have hji : i = j2 := Option.some.inj (by simpa [hp] using hj2)
        subst hji
        simp [hp, hq2]
      · have hpf : p i = false := by simpa using hp
        have hacc : acc = some j2 := by simpa [hpf] using hj2
        simpa [hpf] using h j2 hacc hq2

theorem lastWith_conj_isSome (p q : InstanceInfo → Bool) :
    ∀ (l : List InstanceInfo) (acc acc2 : Option InstanceInfo),
      (acc2.isSome = true → acc.isSome = true) →
      (lastWith (fun i => p i && q i) acc2 l).isSome = true →
      (lastWith p acc l).isSome = true := by
  intro l
  induction l with
  | nil => intro acc acc2 h hsome; exact h hsome
  | cons i rest ih =>
      intro acc acc2 h hsome
      have hsome2 : (lastWith (fun i => p i && q i)
          (if (p i && q i : Bool) then some i else acc2) rest).isSome = true := hsome
      show (lastWith p (if p i then some i else acc) rest).isSome = true
      refine ih _ _ ?_ hsome2
      intro hs
      by_cases hp : p i = true
      · simp [hp]
      · have hpf : p i = false := by simpa using hp
        have hacc2 : acc2.isSome = true := by simpa [hpf] using hs
        simpa [hpf] using h hacc2

/-! ### Sample data for witnesses (Scenario A of the specification) -/

def wsInst : InstanceInfo :=
  { id := "i-1", type := "t2.micro", state := "running",
    private_ip := some "10.0.0.1", public_ip := some "54.0.0.1",
    tags := [("Role", "webserver")] }

def dbInst : InstanceInfo :=
  { id := "i-2", type := "t2.small", state := "running",
    private_ip := some "10.0.0.2", public_ip := none, tags := [] }

/-! ### Claim theorems -/

/-- Claim C1: every input instance id is placed in all.hosts with its
computed host vars; exactly when tags.get("Role") equals "webserver"
(exact, case-sensitive) the same id is additionally placed in
all.children.webservers.hosts with the identical HostVars value; an
instance whose Role tag is absent or different appears only in
all.hosts.  Instance ids are unique per the data-model invariant. -/
theorem c1_role_grouping (l : List InstanceInfo) (inst : InstanceInfo)
    (hmem : inst ∈ l) (hnodup : (l.map InstanceInfo.id).Nodup) :
    dictGet (buildInventory l).allHosts inst.id = some (mkHostVars inst)
    ∧ (dictGet inst.tags "Role" = some "webserver" →
        dictGet (buildInventory l).webserversHosts inst.id = some (mkHostVars inst))
    ∧ (dictGet inst.tags "Role" ≠ some "webserver" →
        dictGet (buildInventory l).webserversHosts inst.id = none) := by
  have hlast := lastWith_of_nodup l inst hmem hnodup
  refine ⟨?_, ?_, ?_⟩
  · show dictGet (buildInventoryLoop { allHosts := [], webserversHosts := [] } l).allHosts
      inst.id = some (mkHostVars inst)
    rw [loop_allHosts inst.id l { allHosts := [], webserversHosts := [] }, hlast]
  · intro hw
    have hconj := lastWith_conj (fun i => i.id == inst.id)
      (fun i => decide (dictGet i.tags "Role" = some "webserver")) l none none
      (fun j hj _ => by cases hj) inst hlast (by simp [hw])
    show dictGet
      (buildInventoryLoop { allHosts := [], webserversHosts := [] } l).webserversHosts
      inst.id = some (mkHostVars inst)
    rw [loop_webHosts inst.id l { allHosts := [], webserversHosts := [] }]
    rw [show lastWith
        (fun i => i.id == inst.id && decide (dictGet i.tags "Role" = some "webserver"))
        none l = some inst from hconj]
  · intro hw
    have hinj := List.inj_on_of_nodup_map hnodup
    have hfalse : ∀ i ∈ l,
        (i.id == inst.id && decide (dictGet i.tags "Role" = some "webserver")) = false := by
      intro i hi
      by_cases hid : i.id = inst.id
      · have : i = inst := hinj hi hmem hid
        subst this
        simp [hw]
      · simp [hid]
    have hnone := lastWith_of_all_false
      (fun i => i.id == inst.id && decide (dictGet i.tags "Role" = some "webserver"))
      l none hfalse
    show dictGet
      (buildInventoryLoop { allHosts := [], webserversHosts := [] } l).webserversHosts
      inst.id = none
    rw [loop_webHosts inst.id l { allHosts := [], webserversHosts := [] }, hnone]
    rfl

theorem c1_role_grouping_witness :
    dictGet (buildInventory [wsInst, dbInst]).allHosts wsInst.id = some (mkHostVars wsInst)
    ∧ dictGet (buildInventory [wsInst, dbInst]).webserversHosts wsInst.id =
      some (mkHostVars wsInst)
    ∧ dictGet (buildInventory [wsInst, dbInst]).webserversHosts dbInst.id = none :=
  ⟨(c1_role_grouping [wsInst, dbInst] wsInst (by decide) (by decide)).1,
   (c1_role_grouping [wsInst, dbInst] wsInst (by decide) (by decide)).2.1 (by decide),
   (c1_role_grouping [wsInst, dbInst] dbInst (by decide) (by decide)).2.2 (by decide)⟩

/-- Claim C2 counterexample: an instance whose public_ip is present but
equal to the empty string.  Python `public_ip or private_ip` treats the
empty string as falsy, so ansible_host becomes the private ip, not the
present public_ip, refuting "ansible_host equals public_ip when that is
present". -/
def emptyPubInst : InstanceInfo :=
  { id := "i-3", type := "t2.micro", state := "running",
    private_ip := some "10.0.0.3", public_ip := some "", tags := [] }

theorem c2_counterexample :
    emptyPubInst.public_ip.isSome = true
    ∧ (mkHostVars emptyPubInst).ansible_host = emptyPubInst.private_ip
    ∧ (mkHostVars emptyPubInst).ansible_host ≠ emptyPubInst.public_ip := by
  refine ⟨rfl, rfl, by decide⟩

/-- Claim C2 (amended): ansible_host equals public_ip when it is present
and non-empty; when public_ip is absent or the empty string it equals
private_ip verbatim; when neither field carries a value ansible_host is
null; in every case the instance is still included in all.hosts. -/
theorem c2_ansible_host (inst : InstanceInfo) :
    (∀ s, inst.public_ip = some s → s ≠ "" →
      (mkHostVars inst).ansible_host = some s)
    ∧ ((inst.public_ip = none ∨ inst.public_ip = some "") →
      (mkHostVars inst).ansible_host = inst.private_ip)
    ∧ (inst.public_ip = none → inst.private_ip = none →
      (mkHostVars inst).ansible_host = none)
    ∧ (∀ l, inst ∈ l →
      (dictGet (buildInventory l).allHosts inst.id).isSome = true) := by
  refine ⟨?_, ?_, ?_, ?_⟩
  · intro s hs hne
    simp [mkHostVars, pyOr, hs, hne]
  · rintro (hp | hp) <;> simp [mkHostVars, pyOr, hp]
  · intro hp hpr
    simp [mkHostVars, pyOr, hp, hpr]
  · intro l hmem
    have hsome := lastWith_isSome_of_mem (fun i => i.id == inst.id) l none inst hmem
      (by simp)
    show (dictGet
      (buildInventoryLoop { allHosts := [], webserversHosts := [] } l).allHosts
      inst.id).isSome = true
    rw [loop_allHosts inst.id l { allHosts := [], webserversHosts := [] }]
    cases hcase : lastWith (fun i => i.id == inst.id) none l with
    | some j => simp
    | none => rw [hcase] at hsome; simp at hsome

theorem c2_ansible_host_witness :
    (mkHostVars wsInst).ansible_host = some "54.0.0.1" :=
  (c2_ansible_host wsInst).1 "54.0.0.1" rfl (by decide)

/-- Claim C3: failing input for the code bug.  A describe_instances
response whose only instance is stopped leaves zero running instances;
the try body raises ResourceNotFoundError as the docstring promises,
but the blanket `except Exception` clause of get_instances catches it
and re-wraps it as CloudProviderError, so neither get_instances nor
the generation level ever surfaces the NotFound kind. -/
def stoppedRaw : RawInstance :=
  { instanceId := "i-9", instanceType := "t2.micro", stateName := "stopped",
    privateIpAddress := some "10.0.0.9", publicIpAddress := none, tags := [] }

theorem c3_zero_running_wrapped_as_provider_error :
    get_instances_try (ProviderResult.ok [{ instances := [stoppedRaw] }]) =
      Except.error (PyExc.infra (InfraError.resourceNotFoundError
        "No running EC2 instances found"))
    ∧ get_instances (ProviderResult.ok [{ instances := [stoppedRaw] }]) =
      Except.error (PyExc.infra (InfraError.cloudProviderError
        "Unexpected error getting EC2 instances: No running EC2 instances found"))
    ∧ generate_inventory (ProviderResult.ok [{ instances := [stoppedRaw] }])
        WriteResult.ok =
      Except.error (PyExc.infra (InfraError.inventoryError
        "Failed to generate inventory: Unexpected error getting EC2 instances: No running EC2 instances found")) :=
  ⟨rfl, rfl, rfl⟩

/-- Claim C4: every id present in the webservers child group is also
present in the root all.hosts map — child membership is additive. -/
theorem c4_child_subset (l : List InstanceInfo) (s : String)
    (h : (dictGet (buildInventory l).webserversHosts s).isSome = true) :
    (dictGet (buildInventory l).allHosts s).isSome = true := by
  have h0 : (dictGet
      (buildInventoryLoop { allHosts := [], webserversHosts := [] } l).webserversHosts
      s).isSome = true := h
  rw [loop_webHosts s l { allHosts := [], webserversHosts := [] }] at h0
  have hconj : (lastWith
      (fun i => i.id == s && decide (dictGet i.tags "Role" = some "webserver"))
      none l).isSome = true := by
    cases hcase : lastWith
        (fun i => i.id == s && decide (dictGet i.tags "Role" = some "webserver"))
        none l with
    | some j => rfl
    | none => rw [hcase] at h0; simp [dictGet] at h0
  have hall := lastWith_conj_isSome (fun i => i.id == s)
    (fun i => decide (dictGet i.tags "Role" = some "webserver")) l none none
    (fun hs => hs) hconj
  show (dictGet
    (buildInventoryLoop { allHosts := [], webserversHosts := [] } l).allHosts
    s).isSome = true
  rw [loop_allHosts s l { allHosts := [], webserversHosts := [] }]
  cases hcase : lastWith (fun i => i.id == s) none l with
  | some j => rfl
  | none => rw [hcase] at hall; simp at hall

theorem c4_child_subset_witness :
    (dictGet (buildInventory [wsInst, dbInst]).allHosts "i-1").isSome = true :=
  c4_child_subset [wsInst, dbInst] "i-1" (by decide)

/-- Claim C5: generate_key_pair is idempotent by private-key-path
existence.  A first call with a successful key generation leaves the
private key path Present; any second call (whatever the external
capability would do) returns the identical path pair without invoking
the key-generation capability again. -/
theorem c5_generate_key_pair_idempotent (fs : FileSystem) (kd n priv pub : String)
    (k2 : KeygenOutcome) :
    (generate_key_pair fs kd n (KeygenOutcome.success priv pub)).result =
      Except.ok (joinPath kd n, joinPath kd n ++ ".pub")
    ∧ (generate_key_pair
        (generate_key_pair fs kd n (KeygenOutcome.success priv pub)).fs kd n
        k2).result =
      Except.ok (joinPath kd n, joinPath kd n ++ ".pub")
    ∧ (generate_key_pair
        (generate_key_pair fs kd n (KeygenOutcome.success priv pub)).fs kd n
        k2).invoked = false := by
  by_cases h : fsExists fs (joinPath kd n) = true
  · refine ⟨by simp [generate_key_pair, h], ?_, ?_⟩
    · have hfs : (generate_key_pair fs kd n (KeygenOutcome.success priv pub)).fs = fs := by
        simp [generate_key_pair, h]
      rw [hfs]
      simp [generate_key_pair, h]
    · have hfs : (generate_key_pair fs kd n (KeygenOutcome.success priv pub)).fs = fs := by
        simp [generate_key_pair, h]
      rw [hfs]
      simp [generate_key_pair, h]
  · have hf : fsExists fs (joinPath kd n) = false := by simpa using h
    have hfs : (generate_key_pair fs kd n (KeygenOutcome.success priv pub)).fs =
        fsWrite (fsWrite fs (joinPath kd n) priv) (joinPath kd n ++ ".pub") pub := by
      simp [generate_key_pair, hf]
    have hne : ¬ (joinPath kd n ++ ".pub" = joinPath kd n) := by
      intro hcontra
      have hlen := congrArg String.length hcontra
      rw [String.length_append] at hlen
      have h4 : String.length ".pub" = 4 := rfl
      rw [h4] at hlen
      omega
    have hex : fsExists
        (fsWrite (fsWrite fs (joinPath kd n) priv) (joinPath kd n ++ ".pub") pub)
        (joinPath kd n) = true := by
      simp [fsExists, fsWrite, fsLookup, dictGet_insert, hne]
    refine ⟨by simp [generate_key_pair, hf], ?_, ?_⟩
    · rw [hfs]; simp [generate_key_pair, hex]
    · rw [hfs]; simp [generate_key_pair, hex]

/-- Claim C6: verify_connectivity raises ResourceNotFoundError exactly
when the private key is Absent; when Present it returns true exactly
for exit code zero, returns false (never raises) for both a nonzero
exit and a timeout of the bounded wait, and CalledProcessError also
maps to false; only an unexpected failure of the external capability
propagates, wrapped as SSHManagerError; the ssh invocation carries the
10-unit timeout. -/
theorem c6_verify_connectivity (fs : FileSystem) (kd host user n : String)
    (port : Nat) (run : ProcRequest → SSHOutcome) :
    (fsExists fs (joinPath kd n) = false →
      verify_connectivity fs kd host user n port run =
        Except.error (InfraError.resourceNotFoundError
          ("Private key not found: " ++ joinPath kd n)))
    ∧ (fsExists fs (joinPath kd n) = true →
      (∀ code, run (ssh_request (joinPath kd n) port user host) = SSHOutcome.exit code →
        verify_connectivity fs kd host user n port run = Except.ok (decide (code = 0)))
      ∧ (run (ssh_request (joinPath kd n) port user host) = SSHOutcome.timeoutExpired →
        verify_connectivity fs kd host user n port run = Except.ok false)
      ∧ (∀ stderr,
          run (ssh_request (joinPath kd n) port user host) =
            SSHOutcome.calledProcessError stderr →
          verify_connectivity fs kd host user n port run = Except.ok false)
      ∧ (∀ m, run (ssh_request (joinPath kd n) port user host) = SSHOutcome.unexpected m →
          verify_connectivity fs kd host user n port run =
            Except.error (InfraError.sshManagerError
              ("Unexpected error connecting to " ++ host ++ ": " ++ m))))
    ∧ (ssh_request (joinPath kd n) port user host).timeout = some 10 := by
  refine ⟨?_, ?_, rfl⟩
  · intro hab
    simp [verify_connectivity, hab]
  · intro hpres
    refine ⟨?_, ?_, ?_, ?_⟩
    · intro code hrun
      by_cases hc : code = 0 <;> simp [verify_connectivity, hpres, hrun, hc]
    · intro hrun
      simp [verify_connectivity, hpres, hrun]
    · intro stderr hrun
      simp [verify_connectivity, hpres, hrun]
    · intro m hrun
      simp [verify_connectivity, hpres, hrun]

theorem c6_verify_connectivity_witness :
    verify_connectivity { files := [("/keys/k1", FileContent.readable "PRIV")] }
      "/keys" "h1" "u1" "k1" 22 (fun _ => SSHOutcome.exit 0) = Except.ok true := by
  have h := ((c6_verify_connectivity
      { files := [("/keys/k1", FileContent.readable "PRIV")] }
      "/keys" "h1" "u1" "k1" 22 (fun _ => SSHOutcome.exit 0)).2.1
      (by decide)).1 0 rfl
  simpa using h

/-- The instance-loop of get_instances appends exactly the running
instances in order, as a filter. -/
theorem instLoop_eq (il : List RawInstance) :
    ∀ acc, instLoop acc il =
      acc ++ (il.filter (fun i => i.stateName == "running")).map toInstanceInfo := by
  induction il with
  | nil => intro acc; simp [instLoop]
  | cons i rest ih =>
      intro acc
      show instLoop (if i.stateName = "running" then acc ++ [toInstanceInfo i] else acc)
        rest = _
      by_cases h : i.stateName = "running"
      · rw [if_pos h, ih]
        simp [List.filter_cons, h]
      · rw [if_neg h, ih]
        simp [List.filter_cons, h]

/-- The reservation loop of get_instances flattens all reservations and
keeps exactly the running instances. -/
theorem resLoop_eq (rs : List Reservation) :
    ∀ acc, resLoop acc rs =
      acc ++ ((rs.map Reservation.instances).flatten.filter
        (fun i => i.stateName == "running")).map toInstanceInfo := by
  induction rs with
  | nil => intro acc; simp [resLoop]
  | cons r rest ih =>
      intro acc
      show resLoop (instLoop acc r.instances) rest = _
      rw [ih, instLoop_eq]
      simp [List.filter_append, List.append_assoc]

/-- Claim C7: get_instances retains exactly the instances whose state
is the exact string "running"; all other states are silently dropped
from the returned list, and as long as at least one running instance
remains the call succeeds with that filtered list. -/
theorem c7_running_filter (rs : List Reservation) :
    extractInstances rs =
      ((rs.map Reservation.instances).flatten.filter
        (fun i => i.stateName == "running")).map toInstanceInfo
    ∧ ((rs.map Reservation.instances).flatten.any
        (fun i => i.stateName == "running") = true →
      get_instances (ProviderResult.ok rs) = Except.ok (extractInstances rs)) := by
  have hchar : extractInstances rs =
      ((rs.map Reservation.instances).flatten.filter
        (fun i => i.stateName == "running")).map toInstanceInfo := by
    show resLoop [] rs = _
    rw [resLoop_eq]
    simp
  refine ⟨hchar, ?_⟩
  intro hany
  obtain ⟨i, hmem, hp⟩ := List.any_eq_true.mp hany
  have hne : extractInstances rs ≠ [] := by
    intro hcontra
    rw [hchar] at hcontra
    have hmemf : i ∈ (rs.map Reservation.instances).flatten.filter
        (fun i => i.stateName == "running") := List.mem_filter.mpr ⟨hmem, hp⟩
    have hmemm : toInstanceInfo i ∈ ((rs.map Reservation.instances).flatten.filter
        (fun i => i.stateName == "running")).map toInstanceInfo :=
      List.mem_map_of_mem toInstanceInfo hmemf
    rw [hcontra] at hmemm
    exact List.not_mem_nil _ hmemm
  have hempty : (extractInstances rs).isEmpty = false := by
    cases hx : extractInstances rs with
    | nil => exact absurd hx hne
    | cons a b => rfl
  simp [get_instances, get_instances_try, hempty]

def runningRaw : RawInstance :=
  { instanceId := "i-1", instanceType := "t2.micro", stateName := "running",
    privateIpAddress := some "10.0.0.1", publicIpAddress := some "54.0.0.1",
    tags := [{ key := "Role", value := "webserver" }] }

theorem c7_running_filter_witness :
    get_instances (ProviderResult.ok [{ instances := [runningRaw, stoppedRaw] }]) =
      Except.ok (extractInstances [{ instances := [runningRaw, stoppedRaw] }]) :=
  (c7_running_filter [{ instances := [runningRaw, stoppedRaw] }]).2 (by decide)

/-- Claim C8: duplicate ids follow last-write-wins.  The all.hosts
entry under an id is the host vars computed from the last occurrence of
that id in input order; the webservers entry is the host vars of the
last occurrence written to that group; in particular when the last
occurrence of the id carries the webserver Role tag, the webservers
entry equals its host vars. -/
theorem c8_last_write_wins (l : List InstanceInfo) (s : String) :
    dictGet (buildInventory l).allHosts s =
      (lastWith (fun i => i.id == s) none l).map mkHostVars
    ∧ dictGet (buildInventory l).webserversHosts s =
      (lastWith
        (fun i => i.id == s && decide (dictGet i.tags "Role" = some "webserver"))
        none l).map mkHostVars
    ∧ (∀ j, lastWith (fun i => i.id == s) none l = some j →
        dictGet j.tags "Role" = some "webserver" →
        dictGet (buildInventory l).webserversHosts s = some (mkHostVars j)) := by
  have hall : dictGet (buildInventory l).allHosts s =
      (lastWith (fun i => i.id == s) none l).map mkHostVars := by
    show dictGet
      (buildInventoryLoop { allHosts := [], webserversHosts := [] } l).allHosts s = _
    rw [loop_allHosts s l { allHosts := [], webserversHosts := [] }]
    cases lastWith (fun i => i.id == s) none l <;> rfl
  have hweb : dictGet (buildInventory l).webserversHosts s =
      (lastWith
        (fun i => i.id == s && decide (dictGet i.tags "Role" = some "webserver"))
        none l).map mkHostVars := by
    show dictGet
      (buildInventoryLoop { allHosts := [], webserversHosts := [] } l).webserversHosts
      s = _
    rw [loop_webHosts s l { allHosts := [], webserversHosts := [] }]
    cases lastWith
        (fun i => i.id == s && decide (dictGet i.tags "Role" = some "webserver"))
        none l <;> rfl
  refine ⟨hall, hweb, ?_⟩
  intro j hlast hrole
  have hconj := lastWith_conj (fun i => i.id == s)
    (fun i => decide (dictGet i.tags "Role" = some "webserver")) l none none
    (fun j2 hj2 _ => by cases hj2) j hlast (by simp [hrole])
  rw [hweb]
  rw [show lastWith
      (fun i => i.id == s && decide (dictGet i.tags "Role" = some "webserver"))
      none l = some j from hconj]
  rfl

def dupFirst : InstanceInfo :=
  { id := "i-7", type := "t2.micro", state := "running",
    private_ip := some "10.0.0.7", public_ip := none,
    tags := [("Role", "webserver")] }

def dupSecond : InstanceInfo :=
  { id := "i-7", type := "t2.large", state := "running",
    private_ip := some "10.0.0.8", public_ip := none,
    tags := [("Role", "webserver")] }

theorem c8_last_write_wins_witness :
    dictGet (buildInventory [dupFirst, dupSecond]).webserversHosts "i-7" =
      some (mkHostVars dupSecond) :=
  (c8_last_write_wins [dupFirst, dupSecond] "i-7").2.2 dupSecond (by decide) (by decide)

/-- Claim C9 counterexample: dispatching the inventory subcommand at a
concrete input produces only the log effect of handle_inventory and no
invocation of the listing/generation pipeline, refuting the claim that
the inventory handler is not an unimplemented stub. -/
theorem c9_counterexample :
    invokesGeneration
      (dispatch (Cli.inventory "aws" "us-west-2" "inventories/inventory.yml")) = false
    ∧ dispatch (Cli.inventory "aws" "us-west-2" "inventories/inventory.yml") =
      [Effect.logInfo "Generating inventory for aws in us-west-2"] :=
  ⟨rfl, rfl⟩

/-- Claim C9 (amended): the CLI dispatch maps the inventory subcommand
to handle_inventory, which — like the provision and configure handlers
— is an unimplemented stub: it only logs and performs no instance
listing and no inventory generation, then main returns exit code 0;
the listing/generation pipeline exists in the inventory module but is
never invoked by the CLI. -/
theorem c9_inventory_handler_is_stub (p r o : String) :
    dispatch (Cli.inventory p r o) = handle_inventory p r o
    ∧ invokesGeneration (handle_inventory p r o) = false
    ∧ handle_inventory p r o =
      [Effect.logInfo ("Generating inventory for " ++ p ++ " in " ++ r)]
    ∧ mainExitCode (Cli.inventory p r o) = 0 :=
  ⟨rfl, rfl, rfl, rfl⟩

/-- Claim C10: get_public_key returns the trimmed content of the public
key file whenever it exists and is readable; it raises
ResourceNotFoundError exactly when the public key file is absent; and
its outcome depends only on the public-key path entry — in particular
never on the private key file. -/
theorem c10_get_public_key (fs fs2 : FileSystem) (kd n : String) :
    (∀ c, fsLookup fs (joinPath kd (n ++ ".pub")) = some (FileContent.readable c) →
      get_public_key fs kd n = Except.ok c.trim)
    ∧ ((∃ m, get_public_key fs kd n =
        Except.error (InfraError.resourceNotFoundError m))
      ↔ fsLookup fs (joinPath kd (n ++ ".pub")) = none)
    ∧ (fsLookup fs (joinPath kd (n ++ ".pub")) =
        fsLookup fs2 (joinPath kd (n ++ ".pub")) →
      get_public_key fs kd n = get_public_key fs2 kd n) := by
  refine ⟨?_, ?_, ?_⟩
  · intro c hc
    simp [get_public_key, hc]
  · constructor
    · rintro ⟨m, hm⟩
      cases hl : fsLookup fs (joinPath kd (n ++ ".pub")) with
      | none => rfl
      | some fc =>
          cases fc with
          | readable c => simp [get_public_key, hl] at hm
          | unreadable e => simp [get_public_key, hl] at hm
    · intro hl
      exact ⟨"Public key not found: " ++ joinPath kd (n ++ ".pub"),
        by simp [get_public_key, hl]⟩
  · intro heq
    simp only [get_public_key]
    rw [heq]

theorem c10_get_public_key_witness :
    get_public_key
      { files := [("/keys/k1.pub",
          FileContent.readable "  ssh-ed25519 AAAA test  ")] } "/keys" "k1" =
      Except.ok ("  ssh-ed25519 AAAA test  ".trim) :=
  (c10_get_public_key
    { files := [("/keys/k1.pub", FileContent.readable "  ssh-ed25519 AAAA test  ")] }
    { files := [] } "/keys" "k1").1 "  ssh-ed25519 AAAA test  " (by decide)

end InfraAuto
